import Mathlib

/-
Verification of the apfs-snapshot-clone planning and validation engine.

The diskutil package (Snapshot, ListSnapshots) and the fake devices /
fake ASR executor (cloner_fakes_test.go) are embedded from the source.
The cloner package itself (Cloneable, the history comparator, Plan,
Clone, Prune) is not among the available source files, so those
operations are modelled from the specification, as marked on each
definition.

Go machine details: time.Time is modelled as a Nat (seconds; the Go
zero time is 0, and Time.Before is strict <).  Go maps keyed by UUID
are modelled as association lists with at most one entry per key
(AddVolume refuses duplicate keys, exactly as the fake does).
-/

namespace ApfsClone

/-- diskutil.Snapshot: display name, stable UUID, creation time.  The
Created field carries the struct tag json:"-" in the source, which is
relevant to the decode model below. -/
structure Snapshot where
  name : String
  uuid : String
  created : Nat
deriving DecidableEq, Repr

/-- One entry of the raw `diskutil apfs listsnapshots -plist` listing as
fed to the decoder: the decoded fields SnapshotName and SnapshotUUID,
plus the snapshot's actual creation time.  The actual creation time is
ghost data used only to state ordering properties: the decoder never
reads it (the Created field's tag is json:"-"). -/
structure RawSnapshot where
  snapshotName : String
  snapshotUUID : String
  snapshotCreated : Nat
deriving DecidableEq, Repr

/-- The JSON decode of one listing entry into a diskutil.Snapshot:
SnapshotName and SnapshotUUID are decoded into Name and UUID; Created
has the tag json:"-", so the decoder skips it and the field keeps the
Go zero time value. -/
def decodeSnapshot (r : RawSnapshot) : Snapshot :=
  { name := r.snapshotName, uuid := r.snapshotUUID, created := 0 }

/-- The decode of a whole listing. -/
def decodeSnapshotList (rs : List RawSnapshot) : List Snapshot :=
  rs.map decodeSnapshot

/-- sort.SliceIsSorted with less i ii = s[i].Created.Before(s[ii].Created):
for every adjacent pair, not (later.Created < earlier.Created). -/
def sliceIsSortedByCreated : List Snapshot → Bool
  | [] => true
  | [_] => true
  | a :: b :: rest =>
    !(decide (b.created < a.created)) && sliceIsSortedByCreated (b :: rest)

/-- DiskUtil.ListSnapshots, from the decoded listing on: verify the
decoded snapshots are sorted ascending by Created (sort.SliceIsSorted
with Created.Before), failing with the "unexpected order" error
otherwise, then reverse the slice in place (the two-index swap loop)
and return it.  Running the diskutil command and the plist decode are
external collaborators; this function takes the decoded listing. -/
def listSnapshots (decoded : List Snapshot) : Except String (List Snapshot) :=
  if sliceIsSortedByCreated decoded then .ok decoded.reverse
  else .error "returned snapshots in an unexpected order"

/-- diskutil.VolumeInfo.  Name, UUID, MountPoint and Device are the
fields of the source struct (the cloner-era VolumeInfo also carries
Device).  The three attribute flags are modelled from the spec (section
3: writable, supports versioned snapshots, case-sensitive naming); the
code that fetches them is part of the cloner-era diskutil not present
among the source files. -/
structure VolumeInfo where
  name : String
  uuid : String
  mountPoint : String
  device : String
  writable : Bool
  supportsSnapshots : Bool
  caseSensitive : Bool
deriving DecidableEq, Repr

/-- Association-list lookup by exact key, modelling Go map indexing. -/
def lookupAssoc {α : Type} (l : List (String × α)) (k : String) : Option α :=
  (l.find? (fun p => p.1 == k)).map Prod.snd

/-- Association-list update, modelling Go map assignment: replace the
value at the first occurrence of the key, or append when absent. -/
def setAssoc {α : Type} : List (String × α) → String → α → List (String × α)
  | [], k, v => [(k, v)]
  | p :: rest, k, v =>
    if p.1 == k then (k, v) :: rest else p :: setAssoc rest k v

/-- Association-list deletion, modelling Go map delete. -/
def eraseAssoc {α : Type} (l : List (String × α)) (k : String) : List (String × α) :=
  l.filter (fun p => !(p.1 == k))

/-- fakeDevices (cloner_fakes_test.go): volume UUID to volume info, and
volume UUID to snapshot list. -/
structure Devices where
  volumes : List (String × VolumeInfo)
  snapshots : List (String × List Snapshot)
deriving DecidableEq, Repr

/-- fakeDevices.Volume: scan all volumes for one whose UUID, Name,
MountPoint or Device equals the identifier.  (Go map iteration order is
unspecified; the model scans in list order, which matches it whenever
at most one volume matches the identifier.) -/
def Devices.volume (d : Devices) (id : String) : Except String VolumeInfo :=
  match (d.volumes.map Prod.snd).find?
      (fun info => info.uuid == id || info.name == id
        || info.mountPoint == id || info.device == id) with
  | some info => .ok info
  | none => .error "volume does not exist"

/-- fakeDevices.AddVolume. -/
def Devices.addVolume (d : Devices) (v : VolumeInfo) (snaps : List Snapshot) :
    Except String Devices :=
  if (lookupAssoc d.volumes v.uuid).isSome then .error "volume already exists"
  else .ok { volumes := setAssoc d.volumes v.uuid v,
             snapshots := setAssoc d.snapshots v.uuid snaps }

/-- fakeDevices.RemoveVolume. -/
def Devices.removeVolume (d : Devices) (uuid : String) : Except String Devices :=
  if (lookupAssoc d.volumes uuid).isSome then
    .ok { volumes := eraseAssoc d.volumes uuid,
          snapshots := eraseAssoc d.snapshots uuid }
  else .error "volume does not exist"

/-- fakeDevices.Snapshots. -/
def Devices.snapshotsOf (d : Devices) (volumeUUID : String) :
    Except String (List Snapshot) :=
  match lookupAssoc d.snapshots volumeUUID with
  | some snaps => .ok snaps
  | none => .error "volume not found"

/-- fakeDevices.Snapshot: look a snapshot up by UUID within a volume. -/
def Devices.snapshot (d : Devices) (volumeUUID snapshotUUID : String) :
    Except String Snapshot :=
  match d.snapshotsOf volumeUUID with
  | .error e => .error e
  | .ok snaps =>
    match snaps.find? (fun s => s.uuid == snapshotUUID) with
    | some s => .ok s
    | none => .error "snapshot not found"

/-- fakeDevices.AddSnapshot: the volume must exist and the snapshot
UUID must be new; the snapshot is appended to the volume's list. -/
def Devices.addSnapshot (d : Devices) (volumeUUID : String) (snap : Snapshot) :
    Except String Devices :=
  let old := (lookupAssoc d.snapshots volumeUUID).getD []
  if (lookupAssoc d.volumes volumeUUID).isNone then .error "volume not found"
  else if old.any (fun s => s.uuid == snap.uuid) then
    .error "snapshot already exists"
  else
    .ok { d with snapshots := setAssoc d.snapshots volumeUUID (old ++ [snap]) }

/-- fakeDevices.DeleteSnapshot: remove the snapshot at the first index
whose UUID matches (append of the slices around it). -/
def Devices.deleteSnapshot (d : Devices) (volumeUUID snapshotUUID : String) :
    Except String Devices :=
  match d.snapshotsOf volumeUUID with
  | .error e => .error e
  | .ok snaps =>
    match snaps.findIdx? (fun s => s.uuid == snapshotUUID) with
    | none => .error "snapshot not found"
    | some i =>
      .ok { d with snapshots := setAssoc d.snapshots volumeUUID (snaps.eraseIdx i) }

/-- fakeASR.Restore (cloner_fakes_test.go): incremental replication.
Checks source and target volumes exist, the shared baseline exists on
both, and the target snapshot exists on source; then appends the target
snapshot to the destination's history and renames the destination
volume (remove and re-add under the same UUID) to the source's name. -/
def restore (d : Devices) (source target : VolumeInfo) (toSnap anchor : Snapshot) :
    Except String Devices := do
  let _ ← d.volume source.uuid
  let _ ← d.volume target.uuid
  let _ ← d.snapshot source.uuid anchor.uuid
  let _ ← d.snapshot target.uuid anchor.uuid
  let _ ← d.snapshot source.uuid toSnap.uuid
  let d1 ← d.addSnapshot target.uuid toSnap
  let snaps ← d1.snapshotsOf target.uuid
  let d2 ← d1.removeVolume target.uuid
  d2.addVolume { target with name := source.name } snaps

/-- fakeASR.DestructiveRestore (cloner_fakes_test.go): full
replication.  Checks source and target volumes exist and the target
snapshot exists on source; then removes the target volume (erasing its
history) and adds it back, renamed to the source's name, with the
single transferred snapshot. -/
def destructiveRestore (d : Devices) (source target : VolumeInfo) (toSnap : Snapshot) :
    Except String Devices := do
  let _ ← d.volume source.uuid
  let _ ← d.volume target.uuid
  let _ ← d.snapshot source.uuid toSnap.uuid
  let d1 ← d.removeVolume target.uuid
  d1.addVolume { target with name := source.name } [toSnap]


/-- Modelled from the spec: the error taxonomy of section 7 for the
cloner package, which is not among the source files. -/
inductive CloneError where
  | volumeNotFound
  | duplicateDestination
  | sourceEqualsDestination
  | destinationNotWritable
  | unsupportedFilesystem
  | caseSensitivityMismatch
  | noSourceHistory
  | historyOrderingViolation
  | executionFailed (msg : String)
  | pruneFailed (msg : String)
deriving DecidableEq, Repr

/-- Modelled from the spec: resolve each destination identifier through
the volume directory (section 4.1 rule 2); any failed resolution is a
VolumeNotFound failure. -/
def resolveTargets (d : Devices) : List String → Except CloneError (List VolumeInfo)
  | [] => .ok []
  | id :: rest =>
    match d.volume id with
    | .error _ => .error .volumeNotFound
    | .ok v =>
      match resolveTargets d rest with
      | .error e => .error e
      | .ok vs => .ok (v :: vs)

/-- No two resolved destination volumes share an identifier. -/
def uuidsDistinct : List VolumeInfo → Bool
  | [] => true
  | v :: rest => !(rest.any fun w => w.uuid == v.uuid) && uuidsDistinct rest

/-- Modelled from the spec: the Eligibility Validator Cloneable
(section 4.1; the cloner package is not among the source files).
Rules in the spec's order: source resolves; each destination resolves;
no duplicate resolved destination; no destination equals the source;
each destination writable; each destination supports versioned
snapshots; each destination matches the source's case sensitivity. -/
def cloneable (d : Devices) (source : String) (targets : List String) :
    Except CloneError Unit :=
  match d.volume source with
  | .error _ => .error .volumeNotFound
  | .ok s =>
    match resolveTargets d targets with
    | .error e => .error e
    | .ok ts =>
      if !uuidsDistinct ts then .error .duplicateDestination
      else if ts.any (fun t => t.uuid == s.uuid) then .error .sourceEqualsDestination
      else if ts.any (fun t => !t.writable) then .error .destinationNotWritable
      else if ts.any (fun t => !t.supportsSnapshots) then .error .unsupportedFilesystem
      else if ts.any (fun t => t.caseSensitive != s.caseSensitive) then
        .error .caseSensitivityMismatch
      else .ok ()

/-- Modelled from the spec: the History Comparator (section 4.2; the
cloner package is not among the source files).  Both sequences are
newest-first; a membership test of each source snapshot's id against
the destination sequence, taken in source order, yields the most recent
shared snapshot. -/
def latestCommonSnapshot (sourceHist destHist : List Snapshot) : Option Snapshot :=
  sourceHist.find? (fun s => destHist.any fun t => t.uuid == s.uuid)

/-- A history is strictly newest-first: each snapshot's creation time is
strictly above its successor's. -/
def strictNewestFirst : List Snapshot → Bool
  | [] => true
  | [_] => true
  | a :: b :: rest => decide (b.created < a.created) && strictNewestFirst (b :: rest)

/-- Modelled from the spec: the Replication Plan tagged union (sections
3 and 4.3), with the distinguished already-current no-op result. -/
inductive ReplicationPlan where
  | alreadyCurrent (toSnap : Snapshot)
  | incremental (toSnap anchor : Snapshot)
  | full (toSnap : Snapshot)
deriving DecidableEq, Repr

/-- Modelled from the spec: the Replication Planner's strategy choice
(section 4.3 steps 2-7; the cloner package is not among the source
files).  Verify both histories are correctly ordered, take the newest
source snapshot as the target, run the comparator, and choose no-op,
incremental or full replacement. -/
def plan (sourceHist destHist : List Snapshot) : Except CloneError ReplicationPlan :=
  if !strictNewestFirst sourceHist then .error .historyOrderingViolation
  else if !strictNewestFirst destHist then .error .historyOrderingViolation
  else
    match sourceHist with
    | [] => .error .noSourceHistory
    | toSnap :: _ =>
      match latestCommonSnapshot sourceHist destHist with
      | none => .ok (.full toSnap)
      | some anchor =>
        if anchor.uuid == toSnap.uuid then .ok (.alreadyCurrent toSnap)
        else .ok (.incremental toSnap anchor)

/-- Deletion pass of the Retention Pruner: walk the listed history and
delete every snapshot other than the kept one, aborting on the first
collaborator failure.  Deletion itself is fakeDevices.DeleteSnapshot. -/
def pruneList (target : VolumeInfo) (keep : Snapshot) :
    List Snapshot → Devices → Except String Devices
  | [], d => .ok d
  | s :: rest, d =>
    if s.uuid == keep.uuid then pruneList target keep rest d
    else
      match d.deleteSnapshot target.uuid s.uuid with
      | .error e => .error e
      | .ok d1 => pruneList target keep rest d1

/-- Modelled from the spec: the Retention Pruner (section 4.4; the
cloner package is not among the source files).  List destination
history after replication and delete every snapshot except the kept
one, aborting on the first failure. -/
def prune (d : Devices) (target : VolumeInfo) (keep : Snapshot) :
    Except String Devices :=
  match d.snapshotsOf target.uuid with
  | .error e => .error e
  | .ok snaps => pruneList target keep snaps d

/-- Modelled from the spec: the options of Clone (the prune opt-in). -/
structure CloneOptions where
  prune : Bool
deriving DecidableEq, Repr

/-- Modelled from the spec: the Clone orchestration (sections 4.3 and
4.5; the cloner package is not among the source files).  Re-validate
eligibility, re-resolve both volumes, fetch both histories, plan, then
execute the plan through the replication executor (embedded here as the
fake ASR) and optionally run the Retention Pruner; the already-current
result short-circuits execution and pruning with success. -/
def clone (opts : CloneOptions) (d : Devices) (sourceId targetId : String) :
    Except CloneError Devices :=
  match cloneable d sourceId [targetId] with
  | .error e => .error e
  | .ok _ =>
    match d.volume sourceId, d.volume targetId with
    | .ok s, .ok t =>
      match d.snapshotsOf s.uuid, d.snapshotsOf t.uuid with
      | .ok sourceHist, .ok destHist =>
        (match plan sourceHist destHist with
        | .error e => .error e
        | .ok (.alreadyCurrent _) => .ok d
        | .ok (.incremental toSnap anchor) =>
          match restore d s t toSnap anchor with
          | .error e => .error (.executionFailed e)
          | .ok d1 =>
            if opts.prune then
              match prune d1 t toSnap with
              | .error e => .error (.pruneFailed e)
              | .ok d2 => .ok d2
            else .ok d1
        | .ok (.full toSnap) =>
          match destructiveRestore d s t toSnap with
          | .error e => .error (.executionFailed e)
          | .ok d1 =>
            if opts.prune then
              match prune d1 t toSnap with
              | .error e => .error (.pruneFailed e)
              | .ok d2 => .ok d2
            else .ok d1)
      | _, _ => .error (.executionFailed "volume not found")
    | _, _ => .error .volumeNotFound


/-! Concrete sample data, used by the witness theorems below. -/

/-- The older shared snapshot of the scenarios (A, t = 1). -/
def snapA : Snapshot :=
  { name := "snap-2021-03-01-203433", uuid := "uuid-snap-a", created := 1 }

/-- The newest source snapshot of the scenarios (B, t = 2). -/
def snapB : Snapshot :=
  { name := "snap-2021-03-01-203509", uuid := "uuid-snap-b", created := 2 }

/-- A destination-only snapshot sharing no id with the source history. -/
def snapC : Snapshot :=
  { name := "snap-2021-02-27-101010", uuid := "uuid-snap-c", created := 1 }

/-- The sample source volume (mounted read-only, APFS, case-insensitive). -/
def sourceVol : VolumeInfo :=
  { name := "source", uuid := "uuid-source", mountPoint := "/Volumes/source",
    device := "/dev/disk2s1", writable := false, supportsSnapshots := true,
    caseSensitive := false }

/-- The sample destination volume (writable, APFS, case-insensitive). -/
def targetVol : VolumeInfo :=
  { name := "target", uuid := "uuid-target", mountPoint := "/Volumes/target",
    device := "/dev/disk3s1", writable := true, supportsSnapshots := true,
    caseSensitive := false }

/-- Devices state of the incremental scenario: source history newest-first
[B, A], destination history [A]. -/
def devsIncremental : Devices :=
  { volumes := [("uuid-source", sourceVol), ("uuid-target", targetVol)],
    snapshots := [("uuid-source", [snapB, snapA]), ("uuid-target", [snapA])] }

/-- Devices state of the disjoint scenario: the destination's sole snapshot
shares no id with the source history. -/
def devsDisjoint : Devices :=
  { volumes := [("uuid-source", sourceVol), ("uuid-target", targetVol)],
    snapshots := [("uuid-source", [snapB, snapA]), ("uuid-target", [snapC])] }

/-- Devices state of the already-current scenario: both histories [B, A]. -/
def devsCurrent : Devices :=
  { volumes := [("uuid-source", sourceVol), ("uuid-target", targetVol)],
    snapshots := [("uuid-source", [snapB, snapA]), ("uuid-target", [snapB, snapA])] }

/-- A case-sensitive destination volume, otherwise fully eligible. -/
def caseSensitiveVol : VolumeInfo :=
  { name := "cs-target", uuid := "uuid-cs-target", mountPoint := "/Volumes/cs",
    device := "/dev/disk4s1", writable := true, supportsSnapshots := true,
    caseSensitive := true }

/-- Devices state of the case-sensitivity mismatch scenario. -/
def devsCaseMismatch : Devices :=
  { volumes := [("uuid-source", sourceVol), ("uuid-cs-target", caseSensitiveVol)],
    snapshots := [("uuid-source", [snapB, snapA]), ("uuid-cs-target", [])] }

/-- The destination volume after a replication renamed it to the source. -/
def renamedTarget : VolumeInfo := { targetVol with name := sourceVol.name }

/-- Devices state after the incremental replication of the scenario. -/
def devsAfterRestore : Devices :=
  { volumes := [("uuid-source", sourceVol), ("uuid-target", renamedTarget)],
    snapshots := [("uuid-source", [snapB, snapA]), ("uuid-target", [snapA, snapB])] }

/-- Devices state after a full (destructive) replication of B. -/
def devsAfterDestructive : Devices :=
  { volumes := [("uuid-source", sourceVol), ("uuid-target", renamedTarget)],
    snapshots := [("uuid-source", [snapB, snapA]), ("uuid-target", [snapB])] }

/-- A raw listing whose actual creation times (2, then 1) are strictly
descending: not in the ascending order the ListSnapshots check expects. -/
def misorderedListing : List RawSnapshot :=
  [ { snapshotName := "com.bombich.ccc.2021-03-02-000000",
      snapshotUUID := "uuid-raw-newer", snapshotCreated := 2 },
    { snapshotName := "com.bombich.ccc.2021-03-01-000000",
      snapshotUUID := "uuid-raw-older", snapshotCreated := 1 } ]

/-- A listing with its actual creation times attached, for stating that a
listing is genuinely out of time order. -/
def withActualTimes (rs : List RawSnapshot) : List Snapshot :=
  rs.map fun r =>
    { name := r.snapshotName, uuid := r.snapshotUUID, created := r.snapshotCreated }

/-! Helper lemmas. -/

theorem except_bind_ok {ε α β : Type} (a : α) (f : α → Except ε β) :
    ((Except.ok a : Except ε α) >>= f) = f a := rfl

theorem bind_ok_inv {ε α β : Type} {x : Except ε α} {f : α → Except ε β} {b : β}
    (h : (x >>= f) = .ok b) : ∃ a, x = .ok a ∧ f a = .ok b := by
  cases x with
  | error e => exact Except.noConfusion h
  | ok a => exact ⟨a, rfl, h⟩

theorem lookupAssoc_setAssoc_self {α : Type} (l : List (String × α)) (k : String) (v : α) :
    lookupAssoc (setAssoc l k v) k = some v := by
  induction l with
  | nil => simp [setAssoc, lookupAssoc]
  | cons p rest ih =>
    by_cases h : p.1 = k
    · simp [setAssoc, lookupAssoc, h]
    · have hb : (p.1 == k) = false := by simp [h]
      have hset : setAssoc (p :: rest) k v = p :: setAssoc rest k v := by
        simp [setAssoc, hb]
      rw [hset]
      simp only [lookupAssoc] at ih ⊢
      rw [List.find?_cons_of_neg _ (by simp [hb])]
      exact ih

theorem lookupAssoc_eraseAssoc_self {α : Type} (l : List (String × α)) (k : String) :
    lookupAssoc (eraseAssoc l k) k = none := by
  have hnone : (eraseAssoc l k).find? (fun p => p.1 == k) = none := by
    rw [List.find?_eq_none]
    intro p hp
    have hmem := List.of_mem_filter hp
    simpa using hmem
  simp [lookupAssoc, hnone]

theorem volume_total {d : Devices} {id : String} {v : VolumeInfo}
    (h : d.volume id = .ok v) : ∃ w, d.volume v.uuid = .ok w := by
  unfold Devices.volume at h ⊢
  cases hf : (d.volumes.map Prod.snd).find?
      (fun info => info.uuid == id || info.name == id
        || info.mountPoint == id || info.device == id) with
  | none => rw [hf] at h; exact Except.noConfusion h
  | some u =>
    rw [hf] at h
    simp only [Except.ok.injEq] at h
    subst h
    have hmem : u ∈ d.volumes.map Prod.snd := List.mem_of_find?_eq_some hf
    have hs : ((d.volumes.map Prod.snd).find?
        (fun info => info.uuid == u.uuid || info.name == u.uuid
          || info.mountPoint == u.uuid || info.device == u.uuid)).isSome := by
      rw [List.find?_isSome]
      exact ⟨u, hmem, by simp⟩
    cases hg : (d.volumes.map Prod.snd).find?
        (fun info => info.uuid == u.uuid || info.name == u.uuid
          || info.mountPoint == u.uuid || info.device == u.uuid) with
    | none => rw [hg] at hs; exact Bool.noConfusion hs
    | some w => exact ⟨w, rfl⟩

theorem uuidsDistinct_iff (ts : List VolumeInfo) :
    uuidsDistinct ts = true ↔ (ts.map VolumeInfo.uuid).Nodup := by
  induction ts with
  | nil => simp [uuidsDistinct]
  | cons v rest ih =>
    simp only [uuidsDistinct, Bool.and_eq_true, Bool.not_eq_true', List.any_eq_false,
      beq_iff_eq, List.map_cons, List.nodup_cons, List.mem_map, ih]
    constructor
    · rintro ⟨h1, h2⟩
      exact ⟨fun ⟨w, hw, he⟩ => h1 w hw he, h2⟩
    · rintro ⟨h1, h2⟩
      exact ⟨fun w hw he => h1 ⟨w, hw, he⟩, h2⟩


theorem restore_ok (d : Devices) (s t : VolumeInfo) (toSnap anchor : Snapshot)
    (D : List Snapshot) (tv : VolumeInfo)
    (hsv : ∃ v, d.volume s.uuid = .ok v)
    (htv : ∃ v, d.volume t.uuid = .ok v)
    (hsa : ∃ x, d.snapshot s.uuid anchor.uuid = .ok x)
    (hta : ∃ x, d.snapshot t.uuid anchor.uuid = .ok x)
    (hst : ∃ x, d.snapshot s.uuid toSnap.uuid = .ok x)
    (htvol : lookupAssoc d.volumes t.uuid = some tv)
    (htD : lookupAssoc d.snapshots t.uuid = some D)
    (hnew : D.any (fun x => x.uuid == toSnap.uuid) = false) :
    ∃ d1, restore d s t toSnap anchor = .ok d1
      ∧ lookupAssoc d1.snapshots t.uuid = some (D ++ [toSnap])
      ∧ lookupAssoc d1.volumes t.uuid = some { t with name := s.name } := by
  obtain ⟨v1, h1⟩ := hsv
  obtain ⟨v2, h2⟩ := htv
  obtain ⟨x1, h3⟩ := hsa
  obtain ⟨x2, h4⟩ := hta
  obtain ⟨x3, h5⟩ := hst
  have hadd : d.addSnapshot t.uuid toSnap =
      .ok { d with snapshots := setAssoc d.snapshots t.uuid (D ++ [toSnap]) } := by
    unfold Devices.addSnapshot
    simp [htD, htvol, hnew]
  have hsnaps : Devices.snapshotsOf
      { d with snapshots := setAssoc d.snapshots t.uuid (D ++ [toSnap]) } t.uuid =
      .ok (D ++ [toSnap]) := by
    unfold Devices.snapshotsOf
    rw [show lookupAssoc (setAssoc d.snapshots t.uuid (D ++ [toSnap])) t.uuid =
      some (D ++ [toSnap]) from lookupAssoc_setAssoc_self _ _ _]
  have hrem : Devices.removeVolume
      { d with snapshots := setAssoc d.snapshots t.uuid (D ++ [toSnap]) } t.uuid =
      .ok { volumes := eraseAssoc d.volumes t.uuid,
            snapshots := eraseAssoc (setAssoc d.snapshots t.uuid (D ++ [toSnap])) t.uuid } := by
    unfold Devices.removeVolume
    simp [htvol]
  have haddv : Devices.addVolume
      { volumes := eraseAssoc d.volumes t.uuid,
        snapshots := eraseAssoc (setAssoc d.snapshots t.uuid (D ++ [toSnap])) t.uuid }
      { t with name := s.name } (D ++ [toSnap]) =
      .ok { volumes :=
              setAssoc (eraseAssoc d.volumes t.uuid) t.uuid { t with name := s.name },
            snapshots :=
              setAssoc (eraseAssoc (setAssoc d.snapshots t.uuid (D ++ [toSnap])) t.uuid)
                t.uuid (D ++ [toSnap]) } := by
    unfold Devices.addVolume
    simp [lookupAssoc_eraseAssoc_self]
  refine ⟨{ volumes :=
              setAssoc (eraseAssoc d.volumes t.uuid) t.uuid { t with name := s.name },
            snapshots :=
              setAssoc (eraseAssoc (setAssoc d.snapshots t.uuid (D ++ [toSnap])) t.uuid)
                t.uuid (D ++ [toSnap]) }, ?_, ?_, ?_⟩
  · simp only [restore, except_bind_ok, h1, h2, h3, h4, h5, hadd, hsnaps, hrem, haddv]
  · exact lookupAssoc_setAssoc_self _ _ _
  · exact lookupAssoc_setAssoc_self _ _ _

theorem destructiveRestore_ok (d : Devices) (s t : VolumeInfo) (toSnap : Snapshot)
    (tv : VolumeInfo)
    (hsv : ∃ v, d.volume s.uuid = .ok v)
    (htv : ∃ v, d.volume t.uuid = .ok v)
    (hst : ∃ x, d.snapshot s.uuid toSnap.uuid = .ok x)
    (htvol : lookupAssoc d.volumes t.uuid = some tv) :
    ∃ d1, destructiveRestore d s t toSnap = .ok d1
      ∧ lookupAssoc d1.snapshots t.uuid = some [toSnap]
      ∧ lookupAssoc d1.volumes t.uuid = some { t with name := s.name } := by
  obtain ⟨v1, h1⟩ := hsv
  obtain ⟨v2, h2⟩ := htv
  obtain ⟨x3, h5⟩ := hst
  have hrem : d.removeVolume t.uuid =
      .ok { volumes := eraseAssoc d.volumes t.uuid,
            snapshots := eraseAssoc d.snapshots t.uuid } := by
    unfold Devices.removeVolume
    simp [htvol]
  have haddv : Devices.addVolume
      { volumes := eraseAssoc d.volumes t.uuid,
        snapshots := eraseAssoc d.snapshots t.uuid }
      { t with name := s.name } [toSnap] =
      .ok { volumes :=
              setAssoc (eraseAssoc d.volumes t.uuid) t.uuid { t with name := s.name },
            snapshots := setAssoc (eraseAssoc d.snapshots t.uuid) t.uuid [toSnap] } := by
    unfold Devices.addVolume
    simp [lookupAssoc_eraseAssoc_self]
  refine ⟨{ volumes :=
              setAssoc (eraseAssoc d.volumes t.uuid) t.uuid { t with name := s.name },
            snapshots := setAssoc (eraseAssoc d.snapshots t.uuid) t.uuid [toSnap] }, ?_, ?_, ?_⟩
  · simp only [destructiveRestore, except_bind_ok, h1, h2, h5, hrem, haddv]
  · exact lookupAssoc_setAssoc_self _ _ _
  · exact lookupAssoc_setAssoc_self _ _ _


theorem zero_created_sorted (l : List Snapshot) (h : ∀ s ∈ l, s.created = 0) :
    sliceIsSortedByCreated l = true := by
  induction l with
  | nil => rfl
  | cons a rest ih =>
    cases rest with
    | nil => rfl
    | cons b rest2 =>
      have ha := h a (by simp)
      have hb := h b (by simp)
      simp only [sliceIsSortedByCreated, Bool.and_eq_true]
      constructor
      · simp [ha, hb]
      · exact ih (fun x hx => h x (List.mem_cons_of_mem a hx))

/-- C9: for every successfully decoded listing, every snapshot's Created
field is the zero time (the decode skips it via the json tag), so the
ascending-order check compares only equal zero timestamps, the
unexpected-order error branch is not taken, and ListSnapshots returns the
decoded listing exactly reversed. -/
theorem listSnapshots_zero_time_reversed (rs : List RawSnapshot) :
    (∀ s ∈ decodeSnapshotList rs, s.created = 0)
    ∧ listSnapshots (decodeSnapshotList rs) = .ok (decodeSnapshotList rs).reverse := by
  have hz : ∀ s ∈ decodeSnapshotList rs, s.created = 0 := by
    intro s hs
    simp only [decodeSnapshotList, List.mem_map] at hs
    obtain ⟨r, _, rfl⟩ := hs
    rfl
  refine ⟨hz, ?_⟩
  unfold listSnapshots
  rw [zero_created_sorted _ hz]
  simp

/-- C2 (code-bug evidence): a listing whose actual creation times are
strictly descending fails the ascending-order condition the check is
meant to enforce, yet ListSnapshots on its decode succeeds and returns
the reversed listing, because the decoded Created fields are all zero;
the planner is thus fed an incorrectly ordered history with no
HistoryOrderingViolation failure. -/
theorem listSnapshots_accepts_misordered :
    sliceIsSortedByCreated (withActualTimes misorderedListing) = false
    ∧ listSnapshots (decodeSnapshotList misorderedListing) =
        .ok (decodeSnapshotList misorderedListing).reverse := by
  constructor
  · rfl
  · rfl

/-- C1: over strictly newest-first histories, the comparator returns no
snapshot exactly when the id sets of the two histories are disjoint; a
returned snapshot is an element of the source history, shares its id
with an element of the destination history, and no strictly newer
source snapshot shares its id with the destination. -/
theorem latestCommonSnapshot_spec (S D : List Snapshot)
    (hS : S.Pairwise (fun a b => b.created < a.created))
    (hD : D.Pairwise (fun a b => b.created < a.created)) :
    (latestCommonSnapshot S D = none ↔ ∀ s ∈ S, ∀ t ∈ D, s.uuid ≠ t.uuid)
    ∧ (∀ x, latestCommonSnapshot S D = some x →
        x ∈ S ∧ (∃ t ∈ D, t.uuid = x.uuid)
        ∧ ∀ s ∈ S, x.created < s.created → ∀ t ∈ D, s.uuid ≠ t.uuid) := by
  constructor
  · unfold latestCommonSnapshot
    rw [List.find?_eq_none]
    constructor
    · intro h s hs t ht heq
      have hnot := h s hs
      simp only [List.any_eq_true, beq_iff_eq, not_exists, not_and] at hnot
      exact hnot t ht heq.symm
    · intro h s hs
      simp only [List.any_eq_true, beq_iff_eq, not_exists, not_and]
      intro t ht he
      exact h s hs t ht he.symm
  · intro x hx
    have hxmem : x ∈ S := List.mem_of_find?_eq_some hx
    have hpx := List.find?_some hx
    have hxD : ∃ t ∈ D, t.uuid = x.uuid := by
      simpa only [List.any_eq_true, beq_iff_eq] using hpx
    refine ⟨hxmem, hxD, ?_⟩
    intro s hs hlt t ht heq
    unfold latestCommonSnapshot at hx
    rw [List.find?_eq_some] at hx
    obtain ⟨hpx2, as, bs, hSeq, hfail⟩ := hx
    subst hSeq
    rcases List.mem_append.mp hs with hsa | hsb
    · have hfs := hfail s hsa
      simp only [Bool.not_eq_true', List.any_eq_false, beq_iff_eq] at hfs
      exact hfs t ht heq.symm
    · rcases List.mem_cons.mp hsb with rfl | hsb2
      · exact absurd hlt (lt_irrefl _)
      · have hpair := (List.pairwise_append.mp hS).2.1
        have hxs := (List.pairwise_cons.mp hpair).1 s hsb2
        exact absurd (lt_trans hlt hxs) (lt_irrefl _)

/-- Witness for C1 at the incremental scenario: source [B, A] and
destination [A] share A, and no newer source snapshot is shared. -/
theorem latestCommonSnapshot_spec_witness :
    snapA ∈ [snapB, snapA] ∧ (∃ t ∈ [snapA], t.uuid = snapA.uuid)
    ∧ ∀ s ∈ [snapB, snapA], snapA.created < s.created →
        ∀ t ∈ [snapA], s.uuid ≠ t.uuid :=
  (latestCommonSnapshot_spec [snapB, snapA] [snapA]
    (by decide) (by decide)).2 snapA (by decide)


theorem snapshotsOf_ok {d : Devices} {u : String} {l : List Snapshot}
    (h : d.snapshotsOf u = .ok l) : lookupAssoc d.snapshots u = some l := by
  unfold Devices.snapshotsOf at h
  cases hl : lookupAssoc d.snapshots u with
  | none => rw [hl] at h; exact Except.noConfusion h
  | some l2 =>
    rw [hl] at h
    simp only [Except.ok.injEq] at h
    rw [h]

theorem snapshot_found {d : Devices} {vu : String} {l : List Snapshot} {su : String}
    (hl : lookupAssoc d.snapshots vu = some l)
    (hex : ∃ x ∈ l, (x.uuid == su) = true) :
    ∃ x, d.snapshot vu su = .ok x := by
  have hs : (l.find? (fun s => s.uuid == su)).isSome := List.find?_isSome.mpr hex
  cases hf : l.find? (fun s => s.uuid == su) with
  | none => rw [hf] at hs; exact Bool.noConfusion hs
  | some x =>
    refine ⟨x, ?_⟩
    unfold Devices.snapshot Devices.snapshotsOf
    rw [hl]
    show (match l.find? (fun s => s.uuid == su) with
      | some s => Except.ok s
      | none => Except.error "snapshot not found") = Except.ok x
    rw [hf]

theorem incremental_setup {S D : List Snapshot} {toSnap anchor : Snapshot}
    {rest : List Snapshot}
    (hhead : S = toSnap :: rest)
    (hanchor : latestCommonSnapshot S D = some anchor)
    (hne : anchor.uuid ≠ toSnap.uuid)
    (horderS : strictNewestFirst S = true)
    (horderD : strictNewestFirst D = true) :
    plan S D = .ok (.incremental toSnap anchor)
    ∧ anchor ∈ S
    ∧ (D.any fun t => t.uuid == anchor.uuid) = true
    ∧ (D.any fun x => x.uuid == toSnap.uuid) = false := by
  have hfind := hanchor
  unfold latestCommonSnapshot at hfind
  have hmem : anchor ∈ S := List.mem_of_find?_eq_some hfind
  have hany : (D.any fun t => t.uuid == anchor.uuid) = true := by
    have h3 := List.find?_some hfind
    exact h3
  have hto : (D.any fun x => x.uuid == toSnap.uuid) = false := by
    by_contra hc
    rw [Bool.not_eq_false] at hc
    have hfirst : latestCommonSnapshot S D = some toSnap := by
      rw [hhead]
      unfold latestCommonSnapshot
      exact List.find?_cons_of_pos _ hc
    rw [hanchor] at hfirst
    simp only [Option.some.injEq] at hfirst
    exact hne (by rw [hfirst])
  have hbeq : (anchor.uuid == toSnap.uuid) = false := by simp [hne]
  have hplan : plan S D = .ok (.incremental toSnap anchor) := by
    subst hhead
    simp [plan, horderS, horderD, hanchor, hbeq]
  exact ⟨hplan, hmem, hany, hto⟩

theorem pruneList_ok (t : VolumeInfo) (keep : Snapshot) :
    ∀ (m : List Snapshot) (d : Devices),
      lookupAssoc d.snapshots t.uuid = some (m ++ [keep]) →
      (∀ x ∈ m, (x.uuid == keep.uuid) = false) →
      ∃ d2, pruneList t keep (m ++ [keep]) d = .ok d2
        ∧ lookupAssoc d2.snapshots t.uuid = some [keep] := by
  intro m
  induction m with
  | nil =>
    intro d hl _
    refine ⟨d, ?_, by simpa using hl⟩
    simp [pruneList]
  | cons x m ih =>
    intro d hl hne
    have hxne : (x.uuid == keep.uuid) = false := hne x (by simp)
    have hdel : d.deleteSnapshot t.uuid x.uuid =
        .ok { d with snapshots := setAssoc d.snapshots t.uuid (m ++ [keep]) } := by
      unfold Devices.deleteSnapshot Devices.snapshotsOf
      rw [show (x :: m) ++ [keep] = x :: (m ++ [keep]) from rfl] at hl
      rw [hl]
      have hidx : ((x :: (m ++ [keep])).findIdx? (fun s => s.uuid == x.uuid)) = some 0 := by
        simp [List.findIdx?_cons]
      simp only [hidx]
      simp [List.eraseIdx]
    have hlook : lookupAssoc
        (setAssoc d.snapshots t.uuid (m ++ [keep])) t.uuid = some (m ++ [keep]) :=
      lookupAssoc_setAssoc_self _ _ _
    obtain ⟨d2, hrun, hfinal⟩ :=
      ih { d with snapshots := setAssoc d.snapshots t.uuid (m ++ [keep]) } hlook
        (fun y hy => hne y (List.mem_cons_of_mem x hy))
    refine ⟨d2, ?_, hfinal⟩
    rw [show (x :: m) ++ [keep] = x :: (m ++ [keep]) from rfl]
    unfold pruneList
    rw [hxne]
    simp only [Bool.false_eq_true, if_false, hdel]
    exact hrun

theorem prune_ok {d : Devices} {t : VolumeInfo} {keep : Snapshot} {m : List Snapshot}
    (hl : lookupAssoc d.snapshots t.uuid = some (m ++ [keep]))
    (hne : ∀ x ∈ m, (x.uuid == keep.uuid) = false) :
    ∃ d2, prune d t keep = .ok d2 ∧ lookupAssoc d2.snapshots t.uuid = some [keep] := by
  obtain ⟨d2, h1, h2⟩ := pruneList_ok t keep m d hl hne
  refine ⟨d2, ?_, h2⟩
  unfold prune Devices.snapshotsOf
  rw [hl]
  exact h1


/-- C3: when the source history toSnap :: rest and the destination history
D share an anchor snapshot differing from the newest source snapshot
toSnap, planning chooses the incremental strategy and Clone without
pruning succeeds, leaving the destination history as D with toSnap
appended: every previously existing destination snapshot is unchanged
and toSnap is added (for source [B, A] and destination [A] the final
destination history holds exactly A and B). -/
theorem clone_incremental_adds_target (d : Devices) (sourceId targetId : String)
    (s t : VolumeInfo) (S D rest : List Snapshot) (toSnap anchor : Snapshot)
    (hable : cloneable d sourceId [targetId] = .ok ())
    (hsrc : d.volume sourceId = .ok s)
    (htgt : d.volume targetId = .ok t)
    (hSh : d.snapshotsOf s.uuid = .ok S)
    (hDh : d.snapshotsOf t.uuid = .ok D)
    (htvol : lookupAssoc d.volumes t.uuid = some t)
    (hhead : S = toSnap :: rest)
    (hanchor : latestCommonSnapshot S D = some anchor)
    (hne : anchor.uuid ≠ toSnap.uuid)
    (horderS : strictNewestFirst S = true)
    (horderD : strictNewestFirst D = true) :
    ∃ d1, clone { prune := false } d sourceId targetId = .ok d1
      ∧ lookupAssoc d1.snapshots t.uuid = some (D ++ [toSnap]) := by
  obtain ⟨hplan, hmem, hanyAnchor, hanyTo⟩ :=
    incremental_setup hhead hanchor hne horderS horderD
  have hSl : lookupAssoc d.snapshots s.uuid = some S := snapshotsOf_ok hSh
  have hDl : lookupAssoc d.snapshots t.uuid = some D := snapshotsOf_ok hDh
  have hsv : ∃ v, d.volume s.uuid = .ok v := volume_total hsrc
  have htv : ∃ v, d.volume t.uuid = .ok v := volume_total htgt
  have hsa : ∃ x, d.snapshot s.uuid anchor.uuid = .ok x :=
    snapshot_found hSl ⟨anchor, hmem, by simp⟩
  have hexD : ∃ x ∈ D, (x.uuid == anchor.uuid) = true := by
    simpa only [List.any_eq_true] using hanyAnchor
  have hta : ∃ x, d.snapshot t.uuid anchor.uuid = .ok x := snapshot_found hDl hexD
  have hst : ∃ x, d.snapshot s.uuid toSnap.uuid = .ok x :=
    snapshot_found hSl ⟨toSnap, by rw [hhead]; exact List.mem_cons_self _ _, by simp⟩
  obtain ⟨d1, hrest, hsnaps1, hvol1⟩ :=
    restore_ok d s t toSnap anchor D t hsv htv hsa hta hst htvol hDl hanyTo
  refine ⟨d1, ?_, hsnaps1⟩
  simp [clone, hable, hsrc, htgt, hSh, hDh, hplan, hrest]

/-- Witness for C3: in the [B, A] versus [A] scenario, Clone succeeds and
the destination history becomes [A] with B appended. -/
theorem clone_incremental_adds_target_witness :
    ∃ d1, clone { prune := false } devsIncremental "uuid-source" "uuid-target" = .ok d1
      ∧ lookupAssoc d1.snapshots targetVol.uuid = some ([snapA] ++ [snapB]) :=
  clone_incremental_adds_target devsIncremental "uuid-source" "uuid-target"
    sourceVol targetVol [snapB, snapA] [snapA] [snapA] snapB snapA
    rfl rfl rfl rfl rfl rfl rfl rfl (by decide) rfl rfl

/-- C8: on the same incremental scenario with the prune option enabled,
Clone succeeds and the destination history afterwards is exactly the
single newly synchronized snapshot toSnap: every other destination
snapshot has been deleted. -/
theorem clone_prune_keeps_only_target (d : Devices) (sourceId targetId : String)
    (s t : VolumeInfo) (S D rest : List Snapshot) (toSnap anchor : Snapshot)
    (hable : cloneable d sourceId [targetId] = .ok ())
    (hsrc : d.volume sourceId = .ok s)
    (htgt : d.volume targetId = .ok t)
    (hSh : d.snapshotsOf s.uuid = .ok S)
    (hDh : d.snapshotsOf t.uuid = .ok D)
    (htvol : lookupAssoc d.volumes t.uuid = some t)
    (hhead : S = toSnap :: rest)
    (hanchor : latestCommonSnapshot S D = some anchor)
    (hne : anchor.uuid ≠ toSnap.uuid)
    (horderS : strictNewestFirst S = true)
    (horderD : strictNewestFirst D = true) :
    ∃ d2, clone { prune := true } d sourceId targetId = .ok d2
      ∧ lookupAssoc d2.snapshots t.uuid = some [toSnap] := by
  obtain ⟨hplan, hmem, hanyAnchor, hanyTo⟩ :=
    incremental_setup hhead hanchor hne horderS horderD
  have hSl : lookupAssoc d.snapshots s.uuid = some S := snapshotsOf_ok hSh
  have hDl : lookupAssoc d.snapshots t.uuid = some D := snapshotsOf_ok hDh
  have hsv : ∃ v, d.volume s.uuid = .ok v := volume_total hsrc
  have htv : ∃ v, d.volume t.uuid = .ok v := volume_total htgt
  have hsa : ∃ x, d.snapshot s.uuid anchor.uuid = .ok x :=
    snapshot_found hSl ⟨anchor, hmem, by simp⟩
  have hexD : ∃ x ∈ D, (x.uuid == anchor.uuid) = true := by
    simpa only [List.any_eq_true] using hanyAnchor
  have hta : ∃ x, d.snapshot t.uuid anchor.uuid = .ok x := snapshot_found hDl hexD
  have hst : ∃ x, d.snapshot s.uuid toSnap.uuid = .ok x :=
    snapshot_found hSl ⟨toSnap, by rw [hhead]; exact List.mem_cons_self _ _, by simp⟩
  obtain ⟨d1, hrest, hsnaps1, hvol1⟩ :=
    restore_ok d s t toSnap anchor D t hsv htv hsa hta hst htvol hDl hanyTo
  have hneKeep : ∀ x ∈ D, (x.uuid == toSnap.uuid) = false := by
    intro x hx
    simpa using List.any_eq_false.mp hanyTo x hx
  obtain ⟨d2, hpr, hkeep⟩ := prune_ok hsnaps1 hneKeep
  refine ⟨d2, ?_, hkeep⟩
  simp [clone, hable, hsrc, htgt, hSh, hDh, hplan, hrest, hpr]

/-- Witness for C8: pruning the [B, A] versus [A] scenario leaves the
destination history at exactly [B]. -/
theorem clone_prune_keeps_only_target_witness :
    ∃ d2, clone { prune := true } devsIncremental "uuid-source" "uuid-target" = .ok d2
      ∧ lookupAssoc d2.snapshots targetVol.uuid = some [snapB] :=
  clone_prune_keeps_only_target devsIncremental "uuid-source" "uuid-target"
    sourceVol targetVol [snapB, snapA] [snapA] [snapA] snapB snapA
    rfl rfl rfl rfl rfl rfl rfl rfl (by decide) rfl rfl

/-- C4: when the source history toSnap :: rest and the destination history
D share no snapshot id, planning chooses the full-replacement strategy
with the newest source snapshot as the target, and Clone succeeds leaving
the destination history exactly [toSnap]: all prior destination history
is discarded. -/
theorem clone_full_replaces (d : Devices) (sourceId targetId : String)
    (s t : VolumeInfo) (S D rest : List Snapshot) (toSnap : Snapshot)
    (hable : cloneable d sourceId [targetId] = .ok ())
    (hsrc : d.volume sourceId = .ok s)
    (htgt : d.volume targetId = .ok t)
    (hSh : d.snapshotsOf s.uuid = .ok S)
    (hDh : d.snapshotsOf t.uuid = .ok D)
    (htvol : lookupAssoc d.volumes t.uuid = some t)
    (hhead : S = toSnap :: rest)
    (hdisj : ∀ x ∈ S, ∀ y ∈ D, x.uuid ≠ y.uuid)
    (horderS : strictNewestFirst S = true)
    (horderD : strictNewestFirst D = true) :
    plan S D = .ok (.full toSnap)
    ∧ ∃ d1, clone { prune := false } d sourceId targetId = .ok d1
        ∧ lookupAssoc d1.snapshots t.uuid = some [toSnap] := by
  have hnone : latestCommonSnapshot S D = none := by
    unfold latestCommonSnapshot
    rw [List.find?_eq_none]
    intro x hx
    simp only [List.any_eq_true, beq_iff_eq, not_exists, not_and]
    intro y hy he
    exact hdisj x hx y hy he.symm
  have hplan : plan S D = .ok (.full toSnap) := by
    subst hhead
    simp [plan, horderS, horderD, hnone]
  have hSl : lookupAssoc d.snapshots s.uuid = some S := snapshotsOf_ok hSh
  have hsv : ∃ v, d.volume s.uuid = .ok v := volume_total hsrc
  have htv : ∃ v, d.volume t.uuid = .ok v := volume_total htgt
  have hst : ∃ x, d.snapshot s.uuid toSnap.uuid = .ok x :=
    snapshot_found hSl ⟨toSnap, by rw [hhead]; exact List.mem_cons_self _ _, by simp⟩
  obtain ⟨d1, hrest, hsnaps1, hvol1⟩ :=
    destructiveRestore_ok d s t toSnap t hsv htv hst htvol
  refine ⟨hplan, d1, ?_, hsnaps1⟩
  simp [clone, hable, hsrc, htgt, hSh, hDh, hplan, hrest]

/-- Witness for C4: source [B, A] against a destination sharing no id
yields the full plan on B, and afterwards the destination history is
exactly [B]. -/
theorem clone_full_replaces_witness :
    plan [snapB, snapA] [snapC] = .ok (.full snapB)
    ∧ ∃ d1, clone { prune := false } devsDisjoint "uuid-source" "uuid-target" = .ok d1
        ∧ lookupAssoc d1.snapshots targetVol.uuid = some [snapB] :=
  clone_full_replaces devsDisjoint "uuid-source" "uuid-target" sourceVol targetVol
    [snapB, snapA] [snapC] [snapA] snapB
    rfl rfl rfl rfl rfl rfl rfl (by decide) rfl rfl

/-- C5: when the comparator's anchor has the same id as the newest source
snapshot, the destination is already current: Clone returns success with
the devices state unchanged, whatever the options, so neither replication
nor pruning mutates the destination. -/
theorem clone_already_current_noop (opts : CloneOptions) (d : Devices)
    (sourceId targetId : String) (s t : VolumeInfo) (S D rest : List Snapshot)
    (toSnap anchor : Snapshot)
    (hable : cloneable d sourceId [targetId] = .ok ())
    (hsrc : d.volume sourceId = .ok s)
    (htgt : d.volume targetId = .ok t)
    (hSh : d.snapshotsOf s.uuid = .ok S)
    (hDh : d.snapshotsOf t.uuid = .ok D)
    (hhead : S = toSnap :: rest)
    (hanchor : latestCommonSnapshot S D = some anchor)
    (heq : anchor.uuid = toSnap.uuid)
    (horderS : strictNewestFirst S = true)
    (horderD : strictNewestFirst D = true) :
    clone opts d sourceId targetId = .ok d := by
  have hbeq : (anchor.uuid == toSnap.uuid) = true := by simp [heq]
  have hplan : plan S D = .ok (.alreadyCurrent toSnap) := by
    subst hhead
    simp [plan, horderS, horderD, hanchor, hbeq]
  simp [clone, hable, hsrc, htgt, hSh, hDh, hplan]

/-- Witness for C5: with both histories [B, A] Clone (even with pruning
requested) returns the devices state unchanged. -/
theorem clone_already_current_noop_witness :
    clone { prune := true } devsCurrent "uuid-source" "uuid-target" = .ok devsCurrent :=
  clone_already_current_noop { prune := true } devsCurrent "uuid-source" "uuid-target"
    sourceVol targetVol [snapB, snapA] [snapB, snapA] [snapA] snapB snapB
    rfl rfl rfl rfl rfl rfl rfl rfl rfl rfl

/-- C6: when the resolved destination set contains a duplicated volume id
(even through distinct aliases), Cloneable fails with
DuplicateDestination rather than succeeding. -/
theorem cloneable_duplicate_destination (d : Devices) (source : String)
    (targets : List String) (s : VolumeInfo) (ts : List VolumeInfo)
    (hsrc : d.volume source = .ok s)
    (hres : resolveTargets d targets = .ok ts)
    (hdup : ¬ (ts.map VolumeInfo.uuid).Nodup) :
    cloneable d source targets = .error .duplicateDestination := by
  have hfalse : uuidsDistinct ts = false := by
    cases h : uuidsDistinct ts with
    | false => rfl
    | true => exact absurd ((uuidsDistinct_iff ts).mp h) hdup
  simp [cloneable, hsrc, hres, hfalse]

/-- Witness for C6: the same destination volume given once by UUID and once
by name is rejected as a duplicate. -/
theorem cloneable_duplicate_destination_witness :
    cloneable devsIncremental "uuid-source" ["uuid-target", "target"] =
      .error .duplicateDestination :=
  cloneable_duplicate_destination devsIncremental "uuid-source"
    ["uuid-target", "target"] sourceVol [targetVol, targetVol] rfl rfl (by decide)

/-- C7: when every other eligibility attribute is valid but some
destination differs from the source in case sensitivity, Cloneable fails
with CaseSensitivityMismatch. -/
theorem cloneable_case_sensitivity_mismatch (d : Devices) (source : String)
    (targets : List String) (s : VolumeInfo) (ts : List VolumeInfo)
    (hsrc : d.volume source = .ok s)
    (hres : resolveTargets d targets = .ok ts)
    (hdist : uuidsDistinct ts = true)
    (hnsame : (ts.any fun t => t.uuid == s.uuid) = false)
    (hwrit : (ts.any fun t => !t.writable) = false)
    (hfs : (ts.any fun t => !t.supportsSnapshots) = false)
    (hcs : (ts.any fun t => t.caseSensitive != s.caseSensitive) = true) :
    cloneable d source targets = .error .caseSensitivityMismatch := by
  simp [cloneable, hsrc, hres, hdist, hnsame, hwrit, hfs, hcs]

/-- Witness for C7: a writable, snapshot-capable, distinct destination that
is case sensitive while the source is not is rejected for the mismatch. -/
theorem cloneable_case_sensitivity_mismatch_witness :
    cloneable devsCaseMismatch "uuid-source" ["uuid-cs-target"] =
      .error .caseSensitivityMismatch :=
  cloneable_case_sensitivity_mismatch devsCaseMismatch "uuid-source"
    ["uuid-cs-target"] sourceVol [caseSensitiveVol] rfl rfl rfl rfl rfl rfl rfl

/-- C10: after a successful incremental (Restore) or full
(DestructiveRestore) replication, the destination volume registered under
its unchanged UUID carries the source volume's name.  The two replication
modes are independent implications, so each covers every state on which
that mode succeeds (in particular full replication on disjoint-history
states, where incremental replication is impossible). -/
theorem replication_renames_destination (d d' : Devices) (s t : VolumeInfo)
    (toSnap anchor : Snapshot) :
    (restore d s t toSnap anchor = .ok d' →
      ∃ v, lookupAssoc d'.volumes t.uuid = some v ∧ v.name = s.name ∧ v.uuid = t.uuid)
    ∧ (destructiveRestore d s t toSnap = .ok d' →
      ∃ v, lookupAssoc d'.volumes t.uuid = some v ∧ v.name = s.name ∧ v.uuid = t.uuid) := by
  constructor
  · intro h1
    unfold restore at h1
    obtain ⟨a1, ha1, h1⟩ := bind_ok_inv h1
    obtain ⟨a2, ha2, h1⟩ := bind_ok_inv h1
    obtain ⟨a3, ha3, h1⟩ := bind_ok_inv h1
    obtain ⟨a4, ha4, h1⟩ := bind_ok_inv h1
    obtain ⟨a5, ha5, h1⟩ := bind_ok_inv h1
    obtain ⟨dA, hdA, h1⟩ := bind_ok_inv h1
    obtain ⟨snaps, hsn, h1⟩ := bind_ok_inv h1
    obtain ⟨dB, hdB, h1⟩ := bind_ok_inv h1
    unfold Devices.addVolume at h1
    split at h1
    · exact Except.noConfusion h1
    · simp only [Except.ok.injEq] at h1
      subst h1
      exact ⟨{ t with name := s.name }, lookupAssoc_setAssoc_self _ _ _, rfl, rfl⟩
  · intro h2
    unfold destructiveRestore at h2
    obtain ⟨a1, ha1, h2⟩ := bind_ok_inv h2
    obtain ⟨a2, ha2, h2⟩ := bind_ok_inv h2
    obtain ⟨a3, ha3, h2⟩ := bind_ok_inv h2
    obtain ⟨dA, hdA, h2⟩ := bind_ok_inv h2
    unfold Devices.addVolume at h2
    split at h2
    · exact Except.noConfusion h2
    · simp only [Except.ok.injEq] at h2
      subst h2
      exact ⟨{ t with name := s.name }, lookupAssoc_setAssoc_self _ _ _, rfl, rfl⟩

/-- Witness for C10: the incremental case is exercised on the shared
scenario, and the full case on the disjoint-history scenario (where
incremental replication is impossible); both leave the destination
registered under its UUID with the source's name. -/
theorem replication_renames_destination_witness :
    (∃ v, lookupAssoc devsAfterRestore.volumes targetVol.uuid = some v
        ∧ v.name = sourceVol.name ∧ v.uuid = targetVol.uuid)
    ∧ (∃ v, lookupAssoc devsAfterDestructive.volumes targetVol.uuid = some v
        ∧ v.name = sourceVol.name ∧ v.uuid = targetVol.uuid) :=
  ⟨(replication_renames_destination devsIncremental devsAfterRestore
      sourceVol targetVol snapB snapA).1 rfl,
   (replication_renames_destination devsDisjoint devsAfterDestructive
      sourceVol targetVol snapB snapA).2 rfl⟩

end ApfsClone
